import Mathlib

set_option linter.unusedVariables false

/-!
Shallow embedding of `src/check_sheet.py` (the sheet-reader script of this
repository) and verification of its specification claims.

The script authenticates against a spreadsheet service, lists worksheet
titles, resolves a worksheet name by substring match, fetches a cell range
and prints the result.  External effects (authentication, metadata listing,
value fetching) are modelled by an oracle `Env` giving the outcome of the
n-th call of each kind; the script state `St` records the per-kind call
counters, the ordered trace of attempted remote calls and the lines printed
to standard output.
-/

/-- The two error classes of the spec: authentication failures and failures
of the remote spreadsheet service.  The Python code raises and catches
plain `Exception`s; the payload is the rendered message. -/
inductive GError where
  | authError : String → GError
  | remoteError : String → GError
deriving DecidableEq, Repr

/-- `str(e)` of an exception: the message used in the printed diagnostics. -/
def GError.msg : GError → String
  | .authError m => m
  | .remoteError m => m

/-- Metadata response of `sheet.get(...)`: `spreadsheet.get('sheets', [])`
may find the key missing (`none`) and the code defaults to `[]`.  Each
sheet is represented by its title string. -/
structure Spreadsheet where
  sheets : Option (List String)
deriving DecidableEq, Repr

/-- Values response of `sheet.values().get(...)`: `result.get('values', [])`
may find the key missing (`none`) and the code defaults to `[]`. -/
structure ValuesResponse where
  values : Option (List (List String))
deriving DecidableEq, Repr

/-- A remote call attempted by the script: authentication, a metadata
listing, or a value fetch carrying the range-string argument. -/
inductive Call where
  | auth : Call
  | getMetadata : Call
  | getValues : String → Call
deriving DecidableEq, Repr

/-- Oracle for the external world: the outcome of the n-th call of each
kind.  The fetch outcome may depend on the range argument. -/
structure Env where
  auth : Nat → Except GError Unit
  meta : Nat → Except GError Spreadsheet
  fetch : Nat → String → Except GError ValuesResponse

/-- Script state: per-kind call counters, the ordered call trace and the
lines printed to standard output. -/
structure St where
  authCount : Nat
  metaCount : Nat
  fetchCount : Nat
  calls : List Call
  output : List String
deriving DecidableEq, Repr

/-- Initial state of a run. -/
def St.init : St := ⟨0, 0, 0, [], []⟩

/-- `print(line)`: append one line to standard output. -/
def pr (s : St) (line : String) : St :=
  { s with output := s.output ++ [line] }

/-- Print a list of lines in order. -/
def prAll (s : St) (lines : List String) : St :=
  { s with output := s.output ++ lines }

/-- `service_account.Credentials.from_service_account_file(...)`:
attempt the n-th authentication, recording the call. -/
def doAuth (env : Env) (s : St) : Except GError Unit × St :=
  (env.auth s.authCount,
   { s with authCount := s.authCount + 1, calls := s.calls ++ [Call.auth] })

/-- `sheet.get(spreadsheetId=...).execute()`: attempt the n-th metadata
listing, recording the call. -/
def doMeta (env : Env) (s : St) : Except GError Spreadsheet × St :=
  (env.meta s.metaCount,
   { s with metaCount := s.metaCount + 1, calls := s.calls ++ [Call.getMetadata] })

/-- `sheet.values().get(spreadsheetId=..., range=r).execute()`: attempt the
n-th value fetch with range argument `r`, recording the call. -/
def doFetch (env : Env) (s : St) (r : String) : Except GError ValuesResponse × St :=
  (env.fetch s.fetchCount r,
   { s with fetchCount := s.fetchCount + 1, calls := s.calls ++ [Call.getValues r] })

/-- `SERVICE_ACCOUNT_FILE` constant of the script. -/
def SERVICE_ACCOUNT_FILE : String :=
  "C:\\Users\\Leader\\PycharmProjects\\ai\\wallet\\service-account-key.json"

/-- `SPREADSHEET_ID` constant of the script. -/
def SPREADSHEET_ID : String := "10Ro4U_7M0w3bEw_5nunNcy6hTB64oba4q5MAwjNNJPM"

/-- Initial `SHEET_NAME` constant: the default worksheet name, spelled with
a Cyrillic letter in `Researсher`. -/
def SHEET_NAME_default : String := "PROMT Temp: UX Researсher"

/-- The alternate hardcoded worksheet-name spelling used by the fallback
path (Latin `c` in `Researcher`). -/
def SHEET_NAME_fallback : String := "PROMT Temp: UX Researcher"

/-- `RANGE_NAME` constant of the script. -/
def RANGE_NAME : String := "A1:Z100"

/-- The fixed target substring `'PROMT Temp: UX'` searched for in titles. -/
def TARGET : String := "PROMT Temp: UX"

/-- Whether `n` is an initial segment of `h` (character lists). -/
def strPre : List Char → List Char → Bool
  | [], _ => true
  | _ :: _, [] => false
  | a :: as, b :: bs => a == b && strPre as bs

/-- Whether `n` occurs contiguously somewhere in `h` (character lists):
the Python `in` operator on strings. -/
def strSub (n : List Char) : List Char → Bool
  | [] => n.isEmpty
  | b :: bs => strPre n (b :: bs) || strSub n bs

/-- Python `needle in hay` for strings: plain case-sensitive substring
containment, no normalization. -/
def containsSub (hay needle : String) : Bool := strSub needle.data hay.data

/-- `'PROMT Temp: UX' in title`. -/
def containsTarget (title : String) : Bool := containsSub title TARGET

/-- Range argument built at the fetch call site:
`f"'{sheet_name}'!{range_name}"`. -/
def mkRange (sheet_name range_name : String) : String :=
  "'" ++ sheet_name ++ "'!" ++ range_name

/-- The `Available sheets:` listing printed by `get_sheet_data`
(lines 29-34 of the script). -/
def availListing (titles : List String) : List String :=
  "Available sheets:" ::
    (titles.map (fun t =>
      ("- " ++ t) ::
        (if containsTarget t then ["  ^^^ Found matching sheet: " ++ t] else []))).flatten

/-- The notice printed when the fetched range has no rows. -/
def noDataMsg : String := "No data found in the specified range."

/-- Header line printed before the rows:
`f"\nData from {sheet_name}!{range_name}:"`. -/
def dataHeader (sheet_name range_name : String) : String :=
  "\nData from " ++ sheet_name ++ "!" ++ range_name ++ ":"

/-- `print(row)`: Python renders a list of strings as
`['a', 'b']` (single-quoted items, comma-space separated, in brackets). -/
def reprRow (row : List String) : String :=
  "[" ++ String.intercalate ", " (row.map (fun c => "'" ++ c ++ "'")) ++ "]"

/-- The report step (lines 44-49): `if not values` print the no-data
notice, else print the header and each row verbatim, in order. -/
def report (sheet_name range_name : String) (values : List (List String)) :
    List String :=
  if values.isEmpty then [noDataMsg]
  else dataHeader sheet_name range_name :: values.map reprRow

/-- Lines printed from a successful fetch result:
`values = result.get('values', [])` followed by the report step. -/
def processResult (sheet_name range_name : String) (result : ValuesResponse) :
    List String :=
  report sheet_name range_name (result.values.getD [])

/-- Diagnostic printed when the fetch raises (line 51):
`f"Error accessing sheet data: {e}"`. -/
def fetchErrLine (e : GError) : String := "Error accessing sheet data: " ++ e.msg

/-- `get_sheet_data(spreadsheet_id, sheet_name, range_name)` (lines 14-51):
authenticate, list the sheets and print them, then try the fetch; a fetch
failure is caught and reported, never propagated.  Failures of the
authentication or of the listing propagate to the caller (`Except.error`). -/
def get_sheet_data (env : Env) (spreadsheet_id sheet_name range_name : String)
    (s : St) : Except GError Unit × St :=
  match doAuth env s with
  | (Except.error e, s1) => (Except.error e, s1)
  | (Except.ok _, s1) =>
    match doMeta env s1 with
    | (Except.error e, s2) => (Except.error e, s2)
    | (Except.ok sp, s2) =>
      let s3 := prAll s2 (availListing (sp.sheets.getD []))
      match doFetch env s3 (mkRange sheet_name range_name) with
      | (Except.error e, s4) => (Except.ok (), pr s4 (fetchErrLine e))
      | (Except.ok result, s4) =>
        (Except.ok (), prAll s4 (processResult sheet_name range_name result))

/-- Line printed when a title matches during resolution (line 72). -/
def foundMsg (t : String) : String := "\nFound matching sheet: " ++ t

/-- Warning printed when no title matches (line 75). -/
def warnMsg : String :=
  "\nWarning: Could not find sheet with 'PROMT Temp: UX' in the name. Using default name."

/-- The resolution loop of `__main__` (lines 68-75): scan the titles in
order; the first one containing the target substring becomes the sheet
name (with a found-notice); if none matches, keep the default name and
warn.  Returns the selected name and the line printed. -/
def resolveStep : List String → String × String
  | [] => (SHEET_NAME_default, warnMsg)
  | t :: ts =>
    if containsTarget t then (t, foundMsg t) else resolveStep ts

/-- Line printed by the top-level handler (line 80): `f"Error: {e}"`. -/
def mainErrLine (e : GError) : String := "Error: " ++ e.msg

/-- Notice printed before the fallback attempt (line 81). -/
def tryingMsg : String := "\nTrying with a different sheet name variation..."

/-- The `__main__` block (lines 53-84): authenticate, list the sheets,
resolve the sheet name, call `get_sheet_data`; if that call raises, print
the error and retry `get_sheet_data` once with the alternate spelling.
The second call's outcome propagates (uncaught if it raises). -/
def main_run (env : Env) : Except GError Unit × St :=
  match doAuth env St.init with
  | (Except.error e, s1) => (Except.error e, s1)
  | (Except.ok _, s1) =>
    match doMeta env s1 with
    | (Except.error e, s2) => (Except.error e, s2)
    | (Except.ok sp, s2) =>
      let r := resolveStep (sp.sheets.getD [])
      let s3 := pr s2 r.2
      match get_sheet_data env SPREADSHEET_ID r.1 RANGE_NAME s3 with
      | (Except.ok u, s4) => (Except.ok u, s4)
      | (Except.error e, s4) =>
        let s5 := pr (pr s4 (mainErrLine e)) tryingMsg
        get_sheet_data env SPREADSHEET_ID SHEET_NAME_fallback RANGE_NAME s5

example : containsTarget "PROMT Temp: UX Researcher" = true := by decide
example : containsTarget SHEET_NAME_default = true := by decide
example : containsTarget "Sheet1" = false := by decide

/-! ### Characterisation of the substring test -/

lemma strPre_iff (n h : List Char) : strPre n h = true ↔ ∃ t, h = n ++ t := by
  induction n generalizing h with
  | nil => simp [strPre]
  | cons a as ih =>
    cases h with
    | nil => simp [strPre]
    | cons b bs =>
      rw [strPre, Bool.and_eq_true, beq_iff_eq, ih]
      constructor
      · rintro ⟨rfl, t, rfl⟩
        exact ⟨t, rfl⟩
      · rintro ⟨t, het⟩
        injection het with h1 h2
        exact ⟨h1.symm, t, h2⟩

lemma strSub_iff (n h : List Char) : strSub n h = true ↔ ∃ p t, h = p ++ n ++ t := by
  induction h with
  | nil =>
    rw [strSub, List.isEmpty_iff]
    constructor
    · rintro rfl
      exact ⟨[], [], rfl⟩
    · rintro ⟨p, t, he⟩
      rcases List.append_eq_nil.mp he.symm with ⟨hpn, -⟩
      exact (List.append_eq_nil.mp hpn).2
  | cons b bs ih =>
    rw [strSub, Bool.or_eq_true, strPre_iff, ih]
    constructor
    · rintro (⟨t, het⟩ | ⟨p, t, rfl⟩)
      · exact ⟨[], t, by simpa using het⟩
      · exact ⟨b :: p, t, by simp⟩
    · rintro ⟨p, t, he⟩
      cases p with
      | nil =>
        left
        exact ⟨t, by simpa using he⟩
      | cons x xs =>
        right
        rw [List.cons_append, List.cons_append] at he
        injection he with h1 h2
        exact ⟨xs, t, h2⟩

/-! ### Pure claims about resolution and reporting -/

/-- Claim C3: for every list of worksheet titles, the resolver selects the
first title, in listed order, containing the target substring — where
containment is plain case-sensitive substring containment, no
normalization — and when no title contains it, the default worksheet name
is selected and the warning line is the one emitted. -/
theorem resolver_selects_first_containing_title :
    ∀ titles : List String,
      (match titles.find? containsTarget with
        | some t => resolveStep titles = (t, foundMsg t)
        | none => resolveStep titles = (SHEET_NAME_default, warnMsg)) ∧
      (∀ s : String,
        containsTarget s = true ↔ ∃ p t : List Char, s.data = p ++ TARGET.data ++ t) := by
  intro titles
  constructor
  · induction titles with
    | nil => simp [resolveStep]
    | cons t ts ih =>
      cases h : containsTarget t with
      | true => simp [List.find?_cons_of_pos _ h, resolveStep, h]
      | false =>
        rw [List.find?_cons_of_neg _ (by simp [h])]
        simpa [resolveStep, h] using ih
  · intro s
    exact strSub_iff TARGET.data s.data

/-- Claim C6: on a values response whose list of rows is empty, the report
step emits exactly the no-data notice and nothing else. -/
theorem report_empty_prints_no_data (sheet_name range_name : String) :
    report sheet_name range_name [] = [noDataMsg] := rfl

/-- Claim C5 counterexample: on the rows `[["a","b"],["c","d"]]` the report
step emits three lines, not exactly two — a header line naming the sheet
and range precedes the two row lines. -/
theorem report_pair_not_exactly_two_lines :
    (report "Sheet1" RANGE_NAME [["a", "b"], ["c", "d"]]).length = 3 ∧
    (report "Sheet1" RANGE_NAME [["a", "b"], ["c", "d"]]).length ≠ 2 ∧
    report "Sheet1" RANGE_NAME [["a", "b"], ["c", "d"]] =
      [dataHeader "Sheet1" RANGE_NAME, "['a', 'b']", "['c', 'd']"] := by
  refine ⟨rfl, by decide, rfl⟩

/-- Claim C5 (amended): on the rows `[["a","b"],["c","d"]]` the report step
emits a header line followed by exactly two lines, each the literal row
sequence, in the original returned order, with no sorting and no
deduplication. -/
theorem report_pair_header_then_rows (sheet_name range_name : String) :
    report sheet_name range_name [["a", "b"], ["c", "d"]] =
      [dataHeader sheet_name range_name, reprRow ["a", "b"], reprRow ["c", "d"]] ∧
    reprRow ["a", "b"] = "['a', 'b']" ∧ reprRow ["c", "d"] = "['c', 'd']" :=
  ⟨rfl, rfl, rfl⟩

/-- Claim C7: with worksheet titles `["Sheet1", "PROMT Temp: UX Researcher",
"Other"]` the resolver selects `"PROMT Temp: UX Researcher"`. -/
theorem resolver_concrete_selection :
    (resolveStep ["Sheet1", "PROMT Temp: UX Researcher", "Other"]).1 =
      "PROMT Temp: UX Researcher" := by decide

/-- Claim C9: a values response lacking the `values` key entirely is
processed exactly like one whose values list is empty: the no-data notice
is emitted and the computation returns normally. -/
theorem missing_values_key_like_empty (sheet_name range_name : String) :
    processResult sheet_name range_name ⟨none⟩ =
      processResult sheet_name range_name ⟨some []⟩ ∧
    processResult sheet_name range_name ⟨none⟩ = [noDataMsg] :=
  ⟨rfl, rfl⟩

/-! ### Trace lemmas about the helper and the main flow -/

lemma gsd_trace (env : Env) (sid nm rn : String) (s : St) :
    ∃ tail : List Call,
      (get_sheet_data env sid nm rn s).2.calls = s.calls ++ tail ∧
      (∀ r, Call.getValues r ∈ tail → r = mkRange nm rn) ∧
      (get_sheet_data env sid nm rn s).2.fetchCount ≤ s.fetchCount + 1 ∧
      (∀ e, (get_sheet_data env sid nm rn s).1 = Except.error e →
        (get_sheet_data env sid nm rn s).2.fetchCount = s.fetchCount) := by
  rcases ha : env.auth s.authCount with e | u
  · exact ⟨[Call.auth], by simp [get_sheet_data, doAuth, ha],
      by simp, by simp [get_sheet_data, doAuth, ha],
      fun e _ => by simp [get_sheet_data, doAuth, ha]⟩
  · rcases hm : env.meta s.metaCount with e | sp
    · exact ⟨[Call.auth, Call.getMetadata],
        by simp [get_sheet_data, doAuth, doMeta, ha, hm],
        by simp, by simp [get_sheet_data, doAuth, doMeta, ha, hm],
        fun e _ => by simp [get_sheet_data, doAuth, doMeta, ha, hm]⟩
    · rcases hf : env.fetch s.fetchCount (mkRange nm rn) with e | result
      · refine ⟨[Call.auth, Call.getMetadata, Call.getValues (mkRange nm rn)],
          by simp [get_sheet_data, doAuth, doMeta, doFetch, prAll, pr, ha, hm, hf],
          by simp, by simp [get_sheet_data, doAuth, doMeta, doFetch, prAll, pr, ha, hm, hf],
          fun e he => absurd he ?_⟩
        simp [get_sheet_data, doAuth, doMeta, doFetch, prAll, pr, ha, hm, hf]
      · refine ⟨[Call.auth, Call.getMetadata, Call.getValues (mkRange nm rn)],
          by simp [get_sheet_data, doAuth, doMeta, doFetch, prAll, pr, ha, hm, hf],
          by simp, by simp [get_sheet_data, doAuth, doMeta, doFetch, prAll, pr, ha, hm, hf],
          fun e he => absurd he ?_⟩
        simp [get_sheet_data, doAuth, doMeta, doFetch, prAll, pr, ha, hm, hf]

lemma main_trace (env : Env) :
    (main_run env).2.fetchCount ≤ 1 ∧
    (∀ r, Call.getValues r ∈ (main_run env).2.calls → ∃ n, r = mkRange n RANGE_NAME) := by
  rcases ha : env.auth 0 with e | u
  · constructor
    · simp [main_run, doAuth, St.init, ha]
    · intro r hr
      simp [main_run, doAuth, St.init, ha] at hr
  · rcases hm : env.meta 0 with e | sp
    · constructor
      · simp [main_run, doAuth, doMeta, St.init, ha, hm]
      · intro r hr
        simp [main_run, doAuth, doMeta, St.init, ha, hm] at hr
    · set L := sp.sheets.getD [] with hL
      set s3 : St := ⟨1, 1, 0, [Call.auth, Call.getMetadata], [(resolveStep L).2]⟩ with hs3
      have hmain :
          main_run env =
            match get_sheet_data env SPREADSHEET_ID (resolveStep L).1 RANGE_NAME s3 with
            | (Except.ok u, s4) => (Except.ok u, s4)
            | (Except.error e, s4) =>
              get_sheet_data env SPREADSHEET_ID SHEET_NAME_fallback RANGE_NAME
                (pr (pr s4 (mainErrLine e)) tryingMsg) := by
        simp [main_run, doAuth, doMeta, St.init, ha, hm, pr, hs3]
      obtain ⟨tail, hcalls, hargs, hle, herr⟩ :=
        gsd_trace env SPREADSHEET_ID (resolveStep L).1 RANGE_NAME s3
      rcases hg : get_sheet_data env SPREADSHEET_ID (resolveStep L).1 RANGE_NAME s3
        with ⟨res, s4⟩
      rw [hg] at hcalls hle herr
      cases res with
      | ok u =>
        rw [hmain, hg]
        constructor
        · exact hle
        · intro r hr
          rw [hcalls] at hr
          rcases List.mem_append.mp hr with h | h
          · simp [hs3] at h
          · exact ⟨(resolveStep L).1, hargs r h⟩
      | error e =>
        have h4 : s4.fetchCount = 0 := herr e rfl
        set s5 : St := pr (pr s4 (mainErrLine e)) tryingMsg with hs5
        obtain ⟨tail2, hcalls2, hargs2, hle2, -⟩ :=
          gsd_trace env SPREADSHEET_ID SHEET_NAME_fallback RANGE_NAME s5
        have h5c : s5.calls = s4.calls := by simp [hs5, pr]
        have h5f : s5.fetchCount = 0 := by simp [hs5, pr, h4]
        rw [hmain, hg]
        constructor
        · calc (get_sheet_data env SPREADSHEET_ID SHEET_NAME_fallback RANGE_NAME
                s5).2.fetchCount ≤ s5.fetchCount + 1 := hle2
            _ = 1 := by rw [h5f]
        · intro r hr
          rw [hcalls2, h5c, hcalls] at hr
          rcases List.mem_append.mp hr with h | h
          · rcases List.mem_append.mp h with h' | h'
            · simp [hs3] at h'
            · exact ⟨(resolveStep L).1, hargs r h'⟩
          · exact ⟨SHEET_NAME_fallback, hargs2 r h⟩

/-! ### Concrete environments used as counterexamples and witnesses -/

/-- Environment where authentication and listing succeed and every fetch
fails with a remote error. -/
def envFetchFail : Env :=
  ⟨fun _ => Except.ok (),
   fun _ => Except.ok ⟨some ["PROMT Temp: UX Research A"]⟩,
   fun _ _ => Except.error (GError.remoteError "boom")⟩

/-- Environment where only the second authentication attempt (the one made
inside the first `get_sheet_data` call) fails. -/
def envHelperAuthFail : Env :=
  ⟨fun n => if n == 1 then Except.error (GError.authError "invalid_grant") else Except.ok (),
   fun _ => Except.ok ⟨some ["PROMT Temp: UX Research A"]⟩,
   fun _ _ => Except.ok ⟨some [["x"]]⟩⟩

/-- Environment where only the second authentication attempt fails (the
credential key file disappears after the initial load). -/
def envKeyFileGone : Env :=
  ⟨fun n => if n == 1 then Except.error (GError.authError "key file deleted") else Except.ok (),
   fun _ => Except.ok ⟨some ["PROMT Temp: UX Research A"]⟩,
   fun _ _ => Except.ok ⟨some [["x"]]⟩⟩

/-- Environment where every authentication attempt fails. -/
def envAuthFailAll : Env :=
  ⟨fun _ => Except.error (GError.authError "credential file unreadable"),
   fun _ => Except.error (GError.remoteError "unreachable"),
   fun _ _ => Except.error (GError.remoteError "unreachable")⟩

/-- A second all-authentication-failure environment (scope rejection). -/
def envScopeRejected : Env :=
  ⟨fun _ => Except.error (GError.authError "scope rejected"),
   fun _ => Except.error (GError.remoteError "unreachable"),
   fun _ _ => Except.error (GError.remoteError "unreachable")⟩

/-- Environment where every remote call succeeds. -/
def envAllOk : Env :=
  ⟨fun _ => Except.ok (),
   fun _ => Except.ok ⟨some ["PROMT Temp: UX B"]⟩,
   fun _ _ => Except.ok ⟨some [["v"]]⟩⟩

/-- Environment for exercising the caught fetch failure inside the helper. -/
def envRangeRejected : Env :=
  ⟨fun _ => Except.ok (),
   fun _ => Except.ok ⟨some ["Data"]⟩,
   fun _ _ => Except.error (GError.remoteError "Unable to parse range")⟩

/-! ### Stateful claims -/

/-- Claim C1 counterexample: in a run whose primary fetch raises a remote
error, the helper catches the error itself, the run completes without
raising, exactly one fetch is ever attempted, and no fallback attempt (no
`Trying with a different sheet name variation...` notice) is made — the
claimed single fallback fetch after a primary-fetch error never happens. -/
theorem primary_fetch_error_no_fallback_fetch :
    envFetchFail.fetch 0 (mkRange "PROMT Temp: UX Research A" RANGE_NAME) =
      Except.error (GError.remoteError "boom") ∧
    (main_run envFetchFail).2.calls =
      [Call.auth, Call.getMetadata, Call.auth, Call.getMetadata,
        Call.getValues (mkRange "PROMT Temp: UX Research A" RANGE_NAME)] ∧
    (main_run envFetchFail).2.fetchCount = 1 ∧
    (main_run envFetchFail).1 = Except.ok () ∧
    (main_run envFetchFail).2.output.contains tryingMsg = false := by
  refine ⟨rfl, by decide, by decide, rfl, by decide⟩

/-- Claim C1 (amended): a failure of the primary fetch is caught inside the
helper and triggers no fallback fetch; the fallback helper call happens
only when the helper fails before reaching its fetch, so every run
attempts at most one fetch — in particular never a third. -/
theorem fetch_attempts_at_most_one (env : Env) :
    (main_run env).2.fetchCount ≤ 1 :=
  (main_trace env).1

/-- Claim C2 counterexample: when the authentication attempt made inside
the first helper call fails, the generic top-level handler catches it and
makes the fallback attempt — re-authenticating and fetching — and the run
then completes normally: an authentication failure is neither necessarily
fatal nor exempt from the fallback. -/
theorem helper_auth_error_triggers_fallback :
    envHelperAuthFail.auth 1 = Except.error (GError.authError "invalid_grant") ∧
    (main_run envHelperAuthFail).2.authCount = 3 ∧
    (main_run envHelperAuthFail).2.output.contains tryingMsg = true ∧
    (main_run envHelperAuthFail).2.output.contains
      (mainErrLine (GError.authError "invalid_grant")) = true ∧
    (main_run envHelperAuthFail).1 = Except.ok () ∧
    (main_run envHelperAuthFail).2.fetchCount = 1 := by
  refine ⟨rfl, by decide, by decide, by decide, rfl, by decide⟩

/-- Claim C2 (amended): a failure of the run's initial authentication (the
first credential load, made before any listing) is fatal: the error
propagates uncaught, nothing is printed, and no listing, fetch or fallback
attempt of any kind is made.  (An authentication failure inside a helper
call is instead caught by the generic fallback handler like any other
error.) -/
theorem initial_auth_failure_is_fatal (env : Env) (e : GError)
    (h : env.auth 0 = Except.error e) :
    main_run env = (Except.error e, ⟨1, 0, 0, [Call.auth], []⟩) := by
  simp [main_run, doAuth, St.init, h]

theorem initial_auth_failure_is_fatal_witness :
    main_run envAuthFailAll =
      (Except.error (GError.authError "credential file unreadable"),
        ⟨1, 0, 0, [Call.auth], []⟩) :=
  initial_auth_failure_is_fatal envAuthFailAll
    (GError.authError "credential file unreadable") rfl

/-- Claim C4 counterexample: a run in which an authentication attempt
fails — the credential re-load inside the first helper call, its
occurrence witnessed by the three auth attempts of the run — and yet
worksheet-listing calls and a range-fetch call are attempted: an
authentication failure does not in general short-circuit the flow. -/
theorem auth_failure_run_still_lists_and_fetches :
    envKeyFileGone.auth 1 = Except.error (GError.authError "key file deleted") ∧
    (main_run envKeyFileGone).2.authCount = 3 ∧
    (main_run envKeyFileGone).2.metaCount = 2 ∧
    (main_run envKeyFileGone).2.fetchCount = 1 ∧
    Call.getMetadata ∈ (main_run envKeyFileGone).2.calls := by
  refine ⟨rfl, by decide, by decide, by decide, by decide⟩

/-- Claim C4 (amended): when the run's initial authentication step (the
credential load made before any listing) fails, the run makes no
worksheet-listing call and no range-fetch call: the failed authentication
is the only remote call of the whole run.  (An authentication failure
inside a helper call does not short-circuit: the top-level listing has
already been attempted and the generic fallback may list and fetch
further.) -/
theorem auth_failure_short_circuits (env : Env) (e : GError)
    (h : env.auth 0 = Except.error e) :
    (main_run env).2.calls = [Call.auth] ∧
    (main_run env).2.metaCount = 0 ∧
    (main_run env).2.fetchCount = 0 := by
  simp [main_run, doAuth, St.init, h]

theorem auth_failure_short_circuits_witness :
    (main_run envScopeRejected).2.calls = [Call.auth] ∧
    (main_run envScopeRejected).2.metaCount = 0 ∧
    (main_run envScopeRejected).2.fetchCount = 0 :=
  auth_failure_short_circuits envScopeRejected (GError.authError "scope rejected") rfl

/-- Claim C8: every fetch attempt of the helper passes as range argument
exactly the resolved worksheet name wrapped in single quotes, then `!`,
then the fixed range expression; consequently every fetch attempt of a
whole run carries an argument of the shape `'<worksheet_name>'!A1:Z100`. -/
theorem fetch_range_argument_shape :
    (∀ env sid nm rn s r,
        Call.getValues r ∈ (get_sheet_data env sid nm rn s).2.calls →
        Call.getValues r ∈ s.calls ∨ r = mkRange nm rn) ∧
    (∀ env r, Call.getValues r ∈ (main_run env).2.calls →
        ∃ n, r = "'" ++ n ++ "'!" ++ RANGE_NAME) := by
  constructor
  · intro env sid nm rn s r hr
    obtain ⟨tail, hcalls, hargs, -, -⟩ := gsd_trace env sid nm rn s
    rw [hcalls] at hr
    rcases List.mem_append.mp hr with h | h
    · exact Or.inl h
    · exact Or.inr (hargs r h)
  · intro env r hr
    obtain ⟨n, hn⟩ := (main_trace env).2 r hr
    exact ⟨n, hn⟩

theorem fetch_range_argument_shape_witness :
    ∃ n, mkRange "PROMT Temp: UX B" RANGE_NAME = "'" ++ n ++ "'!" ++ RANGE_NAME :=
  fetch_range_argument_shape.2 envAllOk (mkRange "PROMT Temp: UX B" RANGE_NAME)
    (by decide)

/-- Claim C10: the helper never propagates a failure of the range-fetch
step: whenever its authentication and listing succeed and the fetch
raises, the helper catches the error, prints the diagnostic line, and
returns normally. -/
theorem fetch_error_caught_and_reported (env : Env) (sid nm rn : String) (s : St)
    (sp : Spreadsheet) (e : GError)
    (ha : env.auth s.authCount = Except.ok ())
    (hm : env.meta s.metaCount = Except.ok sp)
    (hf : env.fetch s.fetchCount (mkRange nm rn) = Except.error e) :
    (get_sheet_data env sid nm rn s).1 = Except.ok () ∧
    (get_sheet_data env sid nm rn s).2.output =
      s.output ++ availListing (sp.sheets.getD []) ++ [fetchErrLine e] := by
  constructor <;>
    simp [get_sheet_data, doAuth, doMeta, doFetch, prAll, pr, ha, hm, hf]

theorem fetch_error_caught_and_reported_witness :
    (get_sheet_data envRangeRejected SPREADSHEET_ID "Data" "A1:B2" St.init).1 =
      Except.ok () ∧
    (get_sheet_data envRangeRejected SPREADSHEET_ID "Data" "A1:B2" St.init).2.output =
      St.init.output ++ availListing ((⟨some ["Data"]⟩ : Spreadsheet).sheets.getD []) ++
        [fetchErrLine (GError.remoteError "Unable to parse range")] :=
  fetch_error_caught_and_reported envRangeRejected SPREADSHEET_ID "Data" "A1:B2"
    St.init ⟨some ["Data"]⟩ (GError.remoteError "Unable to parse range") rfl rfl rfl
